import Mathlib

/-!
Verification development for the LogAid diagnosis-and-suggestion engine.

The Go sources (internal/plugins/*.go, internal/engine in logger.go) are
embedded shallowly: Go strings are Lean `String`s, the Go standard-library
string helpers are modelled on `List Char`, the `ai.GetSuggestion` network
call is an oracle `String → Option String` (`none` models a returned error),
and process execution / stdin reads in the execution monitor are oracles
carried in an `Env` record.
-/

/-- Whitespace test used by `strings.Fields` / `strings.TrimSpace`. -/
def ws (c : Char) : Bool := c.isWhitespace

/-- Models Go `strings.ToLower` (character-wise lowering). -/
def goToLower (s : String) : String := ⟨s.data.map Char.toLower⟩

/-- Substring occurrence on character lists (helper for `goContains`). -/
def listContains (sub : List Char) : List Char → Bool
  | [] => sub.isEmpty
  | c :: cs => sub.isPrefixOf (c :: cs) || listContains sub cs

/-- Models Go `strings.Contains s sub`. -/
def goContains (s sub : String) : Bool := listContains sub.data s.data

/-- Models Go `strings.HasPrefix s pre`. -/
def goHasPrefix (s pre : String) : Bool := pre.data.isPrefixOf s.data

/-- Models Go `strings.HasSuffix s suf`. -/
def goHasSuffix (s suf : String) : Bool := suf.data.isSuffixOf s.data

/-- Models Go `strings.TrimSpace`. -/
def goTrimSpace (s : String) : String :=
  ⟨((s.data.dropWhile ws).reverse.dropWhile ws).reverse⟩

/-- Models Go `strings.TrimSuffix s suf`. -/
def goTrimSuffix (s suf : String) : String :=
  if goHasSuffix s suf then ⟨s.data.take (s.data.length - suf.data.length)⟩ else s

/-- Helper for `splitFirst`: the longest prefix strictly before the first
occurrence of `sep`. -/
def cutBefore (sep : List Char) : List Char → List Char
  | [] => []
  | c :: cs => if sep.isPrefixOf (c :: cs) then [] else c :: cutBefore sep cs

/-- Models Go `strings.Split s sep` followed by taking index 0: the part of
`s` before the first occurrence of the (nonempty) separator. -/
def splitFirst (s sep : String) : String := ⟨cutBefore sep.data s.data⟩

/-- Models Go `strings.Split s ","` (the only full-split use in the sources,
in `LoadAllPlugins`). -/
def goSplitComma (s : String) : List String :=
  (s.data.splitOn ',').map String.mk

/-- Accumulator version of `strings.Fields`: `cur` is the word currently
being read. -/
def fieldsAux : List Char → List Char → List (List Char)
  | cur, [] => if cur.isEmpty then [] else [cur]
  | cur, c :: cs =>
    if ws c then
      if cur.isEmpty then fieldsAux [] cs else cur :: fieldsAux [] cs
    else fieldsAux (cur ++ [c]) cs

/-- Models Go `strings.Fields`: whitespace-separated tokens, no empties. -/
def goFields (s : String) : List String := (fieldsAux [] s.data).map String.mk

/-- Single-space join on character lists (helper for `goJoinSpace`). -/
def joinSpaceL : List (List Char) → List Char
  | [] => []
  | [w] => w
  | w :: rest => w ++ ' ' :: joinSpaceL rest

/-- Models Go `strings.Join parts " "`. -/
def goJoinSpace (parts : List String) : String := ⟨joinSpaceL (parts.map String.data)⟩

/-- Replace the first occurrence of `old` by `new` (helper for `goReplace1`). -/
def replaceFirstList (old new : List Char) : List Char → List Char
  | [] => if old.isEmpty then new else []
  | c :: cs =>
    if old.isPrefixOf (c :: cs) then new ++ (c :: cs).drop old.length
    else c :: replaceFirstList old new cs

/-- Models Go `strings.Replace s old new 1`. -/
def goReplace1 (s old new : String) : String :=
  ⟨replaceFirstList old.data new.data s.data⟩

/-- Models `plugins.containsAny` (part_008): case-insensitive substring test
against a pattern list. -/
def containsAny (text : String) (patterns : List String) : Bool :=
  patterns.any (fun pat => goContains (goToLower text) (goToLower pat))

/-- True when the string has no whitespace character (used to state facts
about tokens produced by `goFields`). -/
def noWS (s : String) : Bool := s.data.all (fun c => !ws c)

/-- The `ai.GetSuggestion` network call, as an oracle from the prompt to
either a suggestion (`some`) or an error (`none`). -/
abbrev AIOracle := String → Option String

/-! ## Apt plugin (src/unnamed/part_007) -/

/-- Embeds `aptErrors` trigger phrases from `AptPlugin.Match`. -/
def AptPlugin.aptErrors : List String :=
  ["unable to locate package", "package not found", "e: could not get lock",
   "e: package", "has no installation candidate", "depends:",
   "unmet dependencies", "permission denied", "command not found",
   "broken packages", "held broken packages", "404 not found",
   "signature verification failed", "repository does not have a release file"]

/-- Embeds `AptPlugin.Match`. -/
def AptPlugin.Match (cmd output : String) : Bool :=
  if !goContains (goToLower cmd) "apt" then false
  else containsAny output AptPlugin.aptErrors

/-- The package-name correction table of `AptPlugin.getPackageCorrection`. -/
def AptPlugin.pkgCorrections : List (String × String) :=
  [("rediscli", "redis-tools"), ("redis-cli", "redis-tools"),
   ("redisclient", "redis-tools"), ("mysql", "mysql-server"),
   ("mysqlserver", "mysql-server"), ("nodejs", "nodejs npm"),
   ("node", "nodejs npm"), ("python", "python3"), ("pip", "python3-pip"),
   ("python-pip", "python3-pip"), ("docker", "docker.io"),
   ("dockerio", "docker.io"), ("java", "openjdk-11-jdk"),
   ("jdk", "openjdk-11-jdk"), ("gcc", "build-essential"),
   ("make", "build-essential"), ("cmake", "cmake build-essential"),
   ("vim", "vim-gtk3"), ("emacs", "emacs-gtk"), ("firefox", "firefox-esr"),
   ("chrome", "google-chrome-stable"), ("chromium", "chromium-browser"),
   ("vscode", "code"), ("visualstudio", "code"), ("git", "git-all"),
   ("curl", "curl wget"), ("ssh", "openssh-client openssh-server"),
   ("sshd", "openssh-server"), ("nginx", "nginx-full"), ("apache", "apache2"),
   ("httpd", "apache2"), ("postgres", "postgresql postgresql-contrib"),
   ("postgresql", "postgresql postgresql-contrib"), ("sqlite", "sqlite3"),
   ("htop", "htop"), ("top", "htop"), ("nano", "nano"),
   ("unzip", "unzip zip"), ("tar", "tar gzip"), ("screen", "screen tmux"),
   ("tmux", "tmux"), ("tree", "tree"), ("less", "less"), ("jq", "jq"),
   ("net-tools", "net-tools"), ("ifconfig", "net-tools"),
   ("netstat", "net-tools"), ("telnet", "telnet"), ("ftp", "ftp"),
   ("rsync", "rsync"), ("scp", "openssh-client")]

/-- Embeds `AptPlugin.getPackageCorrection` (a Go map read that yields `""` on a
missing key). -/
def AptPlugin.getPackageCorrection (packageName : String) : String :=
  (AptPlugin.pkgCorrections.lookup (goToLower packageName)).getD ""

/-- The `for i, part := range parts` loop of `AptPlugin.getQuickFix` for the
unable-to-locate-package case: looks for install/show/search followed by a
package token that the table corrects. -/
def AptPlugin.pkgLoop (cmd : String) : List String → String
  | part :: next :: rest =>
    if part == "install" || part == "show" || part == "search" then
      let correction := AptPlugin.getPackageCorrection next
      if correction != "" then goReplace1 cmd next correction
      else AptPlugin.pkgLoop cmd (next :: rest)
    else AptPlugin.pkgLoop cmd (next :: rest)
  | _ => ""

/-- Embeds `AptPlugin.getQuickFix`. -/
def AptPlugin.getQuickFix (cmd output : String) : String :=
  let outputLower := goToLower output
  if goContains outputLower "could not get lock" then
    "sudo killall apt apt-get dpkg && sudo dpkg --configure -a && sudo apt update && " ++ cmd
  else if goContains outputLower "permission denied" && !goContains cmd "sudo" then
    "sudo " ++ cmd
  else if goContains outputLower "404" || goContains outputLower "failed to fetch" then
    "sudo apt update && " ++ cmd
  else if goContains outputLower "unable to locate package" then
    AptPlugin.pkgLoop cmd (goFields cmd)
  else ""

/-- Models `AptPlugin.buildAIPrompt`. The template's prose is irrelevant to
every claim (the oracle is the only consumer); it is modelled as a tagged
concatenation that is faithful in that distinct inputs give distinct prompts
and each plugin uses its own template. -/
def AptPlugin.buildAIPrompt (cmd output : String) : String :=
  "apt-ai-prompt command: " ++ cmd ++ " output: " ++ output

/-- Embeds `AptPlugin.getAISuggestion`: the suggestion text plus whether
`ai.GetSuggestion` was invoked (always, here). On an AI error the plugin
falls back to a fixed generic suggestion. -/
def AptPlugin.getAISuggestion (ai : AIOracle) (cmd output : String) : String × Bool :=
  match ai (AptPlugin.buildAIPrompt cmd output) with
  | some suggestion => (suggestion, true)
  | none => ("sudo apt update && apt search <package-name> && " ++ cmd, true)

/-- Embeds `AptPlugin.Suggest`: quick fix first, otherwise the AI path. -/
def AptPlugin.Suggest (ai : AIOracle) (cmd output : String) : String × Bool :=
  let quickFix := AptPlugin.getQuickFix cmd output
  if quickFix != "" then (quickFix, false)
  else AptPlugin.getAISuggestion ai cmd output

/-! ## Npm plugin (src/unnamed/part_005) -/

/-- Embeds `npmErrors` trigger phrases from `NpmPlugin.Match`. -/
def NpmPlugin.npmErrors : List String :=
  ["unknown command:", "npm err! 404", "not found", "eacces: permission denied",
   "network request", "enotfound", "timeout", "npm err! missing script:",
   "cannot resolve dependency:", "peer dep warning", "deprecated warning",
   "audit found", "vulnerabilities found", "npm err! code enoent",
   "npm err! errno -4058", "npm err! path", "operation not permitted"]

/-- Embeds `NpmPlugin.Match`. -/
def NpmPlugin.Match (cmd output : String) : Bool :=
  if !goContains (goToLower cmd) "npm" then false
  else containsAny output NpmPlugin.npmErrors

/-- The subcommand-typo table of `NpmPlugin.correctNpmCommand`. -/
def NpmPlugin.cmdCorrections : List (String × String) :=
  [("instal", "install"), ("instll", "install"), ("insall", "install"),
   ("isntall", "install"), ("instlal", "install"), ("intall", "install"),
   ("i", "install"), ("stat", "start"), ("strt", "start"), ("str", "start"),
   ("tes", "test"), ("tst", "test"), ("ru", "run"), ("rn", "run"),
   ("updat", "update"), ("updte", "update"), ("upgrd", "upgrade"),
   ("uninsta", "uninstall"), ("uninstal", "uninstall"),
   ("remove", "uninstall"), ("rm", "uninstall"), ("lst", "list"),
   ("ls", "list"), ("info", "info"), ("inf", "info"), ("view", "view"),
   ("vw", "view"), ("search", "search"), ("find", "search"),
   ("audit", "audit"), ("audt", "audit"), ("outdated", "outdated"),
   ("outdate", "outdated"), ("init", "init"), ("int", "init"),
   ("publish", "publish"), ("pub", "publish"), ("unpublish", "unpublish"),
   ("version", "version"), ("ver", "version"), ("link", "link"),
   ("lnk", "link"), ("unlink", "unlink"), ("config", "config"),
   ("conf", "config"), ("cache", "cache"), ("chche", "cache")]

/-- Embeds `NpmPlugin.correctNpmCommand`: replace a mistyped second token via the
table and re-join the `strings.Fields` tokens with single spaces. -/
def NpmPlugin.correctNpmCommand (cmd : String) : String :=
  match goFields cmd with
  | t0 :: t1 :: rest =>
    match NpmPlugin.cmdCorrections.lookup t1 with
    | some correction => goJoinSpace (t0 :: correction :: rest)
    | none => cmd
  | _ => cmd

/-- The package-name typo table of `NpmPlugin.correctPackageName`. -/
def NpmPlugin.pkgCorrections : List (String × String) :=
  [("expres", "express"), ("exprees", "express"), ("expresss", "express"),
   ("lodas", "lodash"), ("lodsh", "lodash"), ("lodassh", "lodash"),
   ("reac", "react"), ("react", "react"), ("reactt", "react"),
   ("axio", "axios"), ("axois", "axios"), ("axioss", "axios"),
   ("momen", "moment"), ("momnet", "moment"), ("momentt", "moment"),
   ("nod-fetch", "node-fetch"), ("node-fech", "node-fetch"),
   ("nodefetch", "node-fetch"), ("cheerio", "cheerio"), ("cherio", "cheerio"),
   ("cheeio", "cheerio"), ("socket.i", "socket.io"), ("socketio", "socket.io"),
   ("socket-io", "socket.io"), ("uuid", "uuid"), ("uui", "uuid"),
   ("uuuid", "uuid"), ("bcryp", "bcrypt"), ("bcrypt", "bcrypt"),
   ("bcryptjs", "bcryptjs"), ("jsonwebtoken", "jsonwebtoken"),
   ("jwt", "jsonwebtoken"), ("mongoose", "mongoose"), ("mongose", "mongoose"),
   ("mungoose", "mongoose"), ("sequelize", "sequelize"),
   ("sequlize", "sequelize"), ("sequeize", "sequelize"), ("cors", "cors"),
   ("cor", "cors"), ("corss", "cors"), ("helmet", "helmet"),
   ("helmt", "helmet"), ("helnet", "helmet"), ("morgan", "morgan"),
   ("morga", "morgan"), ("morganr", "morgan"), ("nodemon", "nodemon"),
   ("nodmon", "nodemon"), ("nodemn", "nodemon"), ("pm2", "pm2"),
   ("pm", "pm2"), ("dotenv", "dotenv"), ("dotev", "dotenv"),
   ("dontenv", "dotenv"), ("chalk", "chalk"), ("chlk", "chalk"),
   ("chalck", "chalk"), ("commander", "commander"), ("comander", "commander"),
   ("comandr", "commander"), ("inquirer", "inquirer"),
   ("inquierer", "inquirer"), ("inquirr", "inquirer"), ("fs-extra", "fs-extra"),
   ("fs-ext", "fs-extra"), ("fsextra", "fs-extra"), ("glob", "glob"),
   ("globb", "glob"), ("globo", "glob"), ("rimraf", "rimraf"),
   ("rimaf", "rimraf"), ("rmraf", "rimraf")]

/-- The indexed loop of `NpmPlugin.correctPackageName`: after an
install/i token, strip a version suffix (`@...`) from the next token, look it
up, and substitute in place; `done` carries the already-visited tokens so the
whole token list can be re-joined. -/
def NpmPlugin.npmPkgLoop (done : List String) : List String → Option (List String)
  | part :: next :: rest =>
    if part == "install" || part == "i" then
      let cleanPackage := splitFirst next "@"
      match NpmPlugin.pkgCorrections.lookup cleanPackage with
      | some correction =>
        some (done.reverse ++ part :: goReplace1 next cleanPackage correction :: rest)
      | none => NpmPlugin.npmPkgLoop (part :: done) (next :: rest)
    else NpmPlugin.npmPkgLoop (part :: done) (next :: rest)
  | _ => none

/-- Embeds `NpmPlugin.correctPackageName`. -/
def NpmPlugin.correctPackageName (cmd output : String) : String :=
  match NpmPlugin.npmPkgLoop [] (goFields cmd) with
  | some parts => goJoinSpace parts
  | none => cmd

/-- Embeds `commonScripts` of `NpmPlugin.suggestScriptCommand`. -/
def NpmPlugin.commonScripts : List String :=
  ["start", "dev", "build", "test", "lint", "serve", "watch", "deploy",
   "production", "development", "server", "client", "clean", "install",
   "update", "postinstall", "preinstall", "prebuild", "postbuild",
   "prestart", "poststart", "pretest", "posttest"]

/-- The script-name loop of `NpmPlugin.suggestScriptCommand`. -/
def NpmPlugin.scriptLoop (scriptName : String) : List String → Option String
  | [] => none
  | common :: rest =>
    if goContains common scriptName || goContains scriptName common then some common
    else NpmPlugin.scriptLoop scriptName rest

/-- Embeds `NpmPlugin.suggestScriptCommand`. -/
def NpmPlugin.suggestScriptCommand (cmd output : String) : String :=
  match goFields cmd with
  | t0 :: t1 :: t2 :: rest =>
    if t1 == "run" then
      match NpmPlugin.scriptLoop t2 NpmPlugin.commonScripts with
      | some common => goJoinSpace (t0 :: t1 :: common :: rest)
      | none => "npm run-script --help # List available scripts"
    else "npm run-script --help # List available scripts"
  | _ => "npm run-script --help # List available scripts"

/-- Embeds `NpmPlugin.getQuickFix`. -/
def NpmPlugin.getQuickFix (cmd output : String) : String :=
  let outputLower := goToLower output
  if (goContains outputLower "eacces" || goContains outputLower "permission denied")
      && (goContains cmd "-g" && !goContains cmd "sudo") then
    "sudo " ++ cmd
  else if goContains outputLower "unknown command:" then
    NpmPlugin.correctNpmCommand cmd
  else if goContains outputLower "404" && goContains outputLower "not found" then
    NpmPlugin.correctPackageName cmd output
  else if goContains outputLower "missing script:" then
    NpmPlugin.suggestScriptCommand cmd output
  else ""

/-- Models `NpmPlugin.buildAIPrompt` (see `AptPlugin.buildAIPrompt`). -/
def NpmPlugin.buildAIPrompt (cmd output : String) : String :=
  "npm-ai-prompt command: " ++ cmd ++ " output: " ++ output

/-- Embeds `NpmPlugin.getAISuggestion`. -/
def NpmPlugin.getAISuggestion (ai : AIOracle) (cmd output : String) : String × Bool :=
  match ai (NpmPlugin.buildAIPrompt cmd output) with
  | some suggestion => (suggestion, true)
  | none => ("npm --help # Check the correct NPM command syntax", true)

/-- Embeds `NpmPlugin.Suggest`. -/
def NpmPlugin.Suggest (ai : AIOracle) (cmd output : String) : String × Bool :=
  let quickFix := NpmPlugin.getQuickFix cmd output
  if quickFix != "" then (quickFix, false)
  else NpmPlugin.getAISuggestion ai cmd output

/-! ## Git plugin (src/unnamed/part_009, second file) -/

/-- Embeds `errorPatterns` from `GitPlugin.Match`. -/
def GitPlugin.errorPatterns : List String :=
  ["git: command not found", "is not a git command", "unknown option",
   "invalid command", "not a git repository", "pathspec",
   "did not match any file", "fatal:", "error:"]

/-- Embeds `GitPlugin.Match`: note the case-sensitive `strings.HasPrefix cmd "git "`
check on the command, unlike the other plugins. -/
def GitPlugin.Match (cmd output : String) : Bool :=
  if !goHasPrefix cmd "git " then false
  else containsAny output GitPlugin.errorPatterns

/-- Embeds `commandCorrections` of `GitPlugin.Suggest`. -/
def GitPlugin.cmdCorrections : List (String × String) :=
  [("checout", "checkout"), ("checkuot", "checkout"), ("chekout", "checkout"),
   ("committ", "commit"), ("comit", "commit"), ("stauts", "status"),
   ("stats", "status"), ("stat", "status"), ("brach", "branch"),
   ("branc", "branch"), ("branh", "branch"), ("pul", "pull"),
   ("pus", "push"), ("pussh", "push"), ("fetch", "fetch"), ("merg", "merge"),
   ("merge", "merge"), ("rebase", "rebase"), ("rebas", "rebase"),
   ("clon", "clone"), ("cloen", "clone"), ("ad", "add"), ("remot", "remote"),
   ("reste", "reset"), ("resett", "reset"), ("dif", "diff"), ("lo", "log"),
   ("sho", "show"), ("tag", "tag"), ("stash", "stash"), ("stas", "stash")]

/-- The checkout-branch loop at the end of `GitPlugin.Suggest`: the token
after a `checkout` token, if any. -/
def GitPlugin.checkoutLoop : List String → Option String
  | part :: next :: rest =>
    if part == "checkout" then some next else GitPlugin.checkoutLoop (next :: rest)
  | _ => none

/-- Embeds `GitPlugin.Suggest`: purely rule-based, with no AI path; returns `""`
when no rule applies. The output checks here are case-sensitive
`strings.Contains` calls, as in the source. -/
def GitPlugin.Suggest (cmd output : String) : String :=
  let parts := goFields cmd
  match parts with
  | _ :: gitCommand :: _ =>
    match GitPlugin.cmdCorrections.lookup gitCommand with
    | some correction =>
      goReplace1 cmd ("git " ++ gitCommand) ("git " ++ correction)
    | none =>
      if goContains output "not a git repository" then "git init"
      else if goContains output "pathspec" && goContains output "did not match" then
        "git branch -a"
      else if goContains cmd "checkout" && goContains output "pathspec" then
        match GitPlugin.checkoutLoop parts with
        | some branchName => "git checkout -b " ++ branchName
        | none => ""
      else ""
  | _ => ""

/-! ## Docker plugin (src/unnamed/part_009, first file) -/

/-- Embeds `dockerErrors` from `DockerPlugin.Match`. -/
def DockerPlugin.dockerErrors : List String :=
  ["unable to find image", "is not a docker command",
   "permission denied while trying to connect to the docker daemon",
   "cannot connect to the docker daemon", "docker daemon not running",
   "no such container", "no such image", "error response from daemon",
   "pull access denied", "repository does not exist", "unauthorized",
   "manifest unknown", "tag does not exist"]

/-- Embeds `DockerPlugin.Match`. -/
def DockerPlugin.Match (cmd output : String) : Bool :=
  if !goContains (goToLower cmd) "docker" then false
  else containsAny output DockerPlugin.dockerErrors

/-- The subcommand-typo table of `DockerPlugin.correctDockerCommand`. -/
def DockerPlugin.cmdCorrections : List (String × String) :=
  [("ru", "run"), ("rn", "run"), ("buil", "build"), ("buid", "build"),
   ("pul", "pull"), ("pll", "pull"), ("pus", "push"), ("psh", "push"),
   ("exe", "exec"), ("exec", "exec"), ("p", "ps"), ("log", "logs"),
   ("stp", "stop"), ("stop", "stop"), ("stat", "start"), ("strt", "start"),
   ("rm", "rm"), ("rmi", "rmi"), ("img", "images"), ("image", "images"),
   ("net", "network"), ("vol", "volume"), ("cp", "cp"), ("insp", "inspect"),
   ("inspt", "inspect")]

/-- Embeds `DockerPlugin.correctDockerCommand`. -/
def DockerPlugin.correctDockerCommand (cmd : String) : String :=
  match goFields cmd with
  | t0 :: t1 :: rest =>
    match DockerPlugin.cmdCorrections.lookup t1 with
    | some correction => goJoinSpace (t0 :: correction :: rest)
    | none => cmd
  | _ => cmd

/-- The image-name typo table of `DockerPlugin.correctImageName`. -/
def DockerPlugin.imageCorrections : List (String × String) :=
  [("ubntu", "ubuntu"), ("ubunt", "ubuntu"), ("ubunut", "ubuntu"),
   ("ngnix", "nginx"), ("ngin", "nginx"), ("nginc", "nginx"),
   ("alpin", "alpine"), ("alpne", "alpine"), ("redi", "redis"),
   ("redis", "redis"), ("rediss", "redis"), ("postgre", "postgres"),
   ("postgrs", "postgres"), ("postgresql", "postgres"), ("mysq", "mysql"),
   ("mysl", "mysql"), ("mysql", "mysql"), ("mong", "mongo"),
   ("mongo", "mongo"), ("mongod", "mongo"), ("node", "node"),
   ("nodejs", "node"), ("pythn", "python"), ("pythno", "python"),
   ("pyhton", "python"), ("centso", "centos"), ("cenot", "centos"),
   ("deban", "debian"), ("debain", "debian"), ("fedra", "fedora"),
   ("fedro", "fedora"), ("archlinx", "archlinux"), ("arch", "archlinux")]

/-- The `for typo, correct := range imageCorrections` loop of
`DockerPlugin.correctImageName`. Go iterates a map in unspecified order; the
embedding fixes the literal order of the source. No claim depends on which
of several simultaneously-matching keys wins. -/
def DockerPlugin.imageLoop (cmd output : String) : List (String × String) → String
  | [] => cmd
  | (typo, correct) :: rest =>
    if goContains (goToLower output) typo then goReplace1 cmd typo correct
    else DockerPlugin.imageLoop cmd output rest

/-- Embeds `DockerPlugin.correctImageName`. -/
def DockerPlugin.correctImageName (cmd output : String) : String :=
  DockerPlugin.imageLoop cmd output DockerPlugin.imageCorrections

/-- Embeds `DockerPlugin.getQuickFix`. -/
def DockerPlugin.getQuickFix (cmd output : String) : String :=
  let outputLower := goToLower output
  if goContains outputLower "permission denied" && !goContains cmd "sudo" then
    "sudo " ++ cmd
  else if goContains outputLower "cannot connect to the docker daemon" then
    "sudo systemctl start docker && " ++ cmd
  else if goContains outputLower "is not a docker command" then
    DockerPlugin.correctDockerCommand cmd
  else if goContains outputLower "unable to find image" then
    DockerPlugin.correctImageName cmd output
  else ""

/-- Models `DockerPlugin.buildAIPrompt` (see `AptPlugin.buildAIPrompt`). -/
def DockerPlugin.buildAIPrompt (cmd output : String) : String :=
  "docker-ai-prompt command: " ++ cmd ++ " output: " ++ output

/-- Embeds `DockerPlugin.getAISuggestion`. -/
def DockerPlugin.getAISuggestion (ai : AIOracle) (cmd output : String) : String × Bool :=
  match ai (DockerPlugin.buildAIPrompt cmd output) with
  | some suggestion => (suggestion, true)
  | none => ("docker --help # Check the correct Docker command syntax", true)

/-- Embeds `DockerPlugin.Suggest`. -/
def DockerPlugin.Suggest (ai : AIOracle) (cmd output : String) : String × Bool :=
  let quickFix := DockerPlugin.getQuickFix cmd output
  if quickFix != "" then (quickFix, false)
  else DockerPlugin.getAISuggestion ai cmd output

/-! ## Pip plugin (src/unnamed/part_006, first part) -/

/-- Embeds `pipErrors` from `PipPlugin.Match`. -/
def PipPlugin.pipErrors : List String :=
  ["no such option:", "unknown command", "could not find a version",
   "no matching distribution found", "permission denied",
   "externally-managed-environment", "pip: command not found",
   "error: could not install packages", "certificate verify failed",
   "connection error", "timeout", "requirement already satisfied",
   "syntax error in requirements", "invalid requirement",
   "pip is being invoked by an old script"]

/-- Embeds `PipPlugin.Match`. -/
def PipPlugin.Match (cmd output : String) : Bool :=
  if !goContains (goToLower cmd) "pip" then false
  else containsAny output PipPlugin.pipErrors

/-- The package-name typo table of `PipPlugin.correctPackageName`. -/
def PipPlugin.pkgCorrections : List (String × String) :=
  [("beautifulsoup", "beautifulsoup4"), ("bs4", "beautifulsoup4"),
   ("beautiful-soup", "beautifulsoup4"), ("request", "requests"),
   ("requets", "requests"), ("reqeusts", "requests"), ("numpy", "numpy"),
   ("numpi", "numpy"), ("numpyy", "numpy"), ("pandas", "pandas"),
   ("panda", "pandas"), ("pandass", "pandas"), ("matplotlib", "matplotlib"),
   ("matplot", "matplotlib"), ("matplotlb", "matplotlib"), ("scipy", "scipy"),
   ("scipi", "scipy"), ("scypy", "scipy"), ("scikit-learn", "scikit-learn"),
   ("sklearn", "scikit-learn"), ("scikit", "scikit-learn"),
   ("tensorflow", "tensorflow"), ("tensorflw", "tensorflow"),
   ("tensoflow", "tensorflow"), ("torch", "torch"), ("pytorch", "torch"),
   ("pyyaml", "pyyaml"), ("yaml", "pyyaml"), ("yml", "pyyaml"),
   ("flask", "flask"), ("flsk", "flask"), ("flaskk", "flask"),
   ("django", "django"), ("djnago", "django"), ("djangoo", "django"),
   ("fastapi", "fastapi"), ("fastap", "fastapi"), ("fast-api", "fastapi"),
   ("sqlalchemy", "sqlalchemy"), ("sqlalchmy", "sqlalchemy"),
   ("sql-alchemy", "sqlalchemy"), ("pillow", "pillow"), ("pil", "pillow"),
   ("pillw", "pillow"), ("opencv-python", "opencv-python"),
   ("opencv", "opencv-python"), ("cv2", "opencv-python"),
   ("jupyter", "jupyter"), ("jupytr", "jupyter"), ("jupyterr", "jupyter"),
   ("ipython", "ipython"), ("ipythoon", "ipython"), ("py-python", "ipython"),
   ("pytz", "pytz"), ("pyttz", "pytz"), ("timezone", "pytz"),
   ("dateutil", "python-dateutil"), ("python-dateutil", "python-dateutil"),
   ("date-util", "python-dateutil"), ("click", "click"), ("clik", "click"),
   ("clickk", "click"), ("setuptools", "setuptools"),
   ("setup-tools", "setuptools"), ("setuptool", "setuptools"),
   ("wheel", "wheel"), ("whel", "wheel"), ("wheell", "wheel"),
   ("virtualenv", "virtualenv"), ("virtual-env", "virtualenv"),
   ("venv", "virtualenv"), ("pipenv", "pipenv"), ("pip-env", "pipenv"),
   ("pipenev", "pipenv")]

/-- Version/qualifier stripping of `PipPlugin.correctPackageName`: successive
`strings.Split(...)[0]` on the version operators. -/
def PipPlugin.cleanPkg (packageName : String) : String :=
  splitFirst (splitFirst (splitFirst (splitFirst (splitFirst
    (splitFirst packageName "==") ">=") "<=") ">") "<") "!="

/-- The indexed loop of `PipPlugin.correctPackageName`. -/
def PipPlugin.pipPkgLoop (done : List String) : List String → Option (List String)
  | part :: next :: rest =>
    if part == "install" then
      let cleanPackage := PipPlugin.cleanPkg next
      match PipPlugin.pkgCorrections.lookup cleanPackage with
      | some correction =>
        some (done.reverse ++ part :: goReplace1 next cleanPackage correction :: rest)
      | none => PipPlugin.pipPkgLoop (part :: done) (next :: rest)
    else PipPlugin.pipPkgLoop (part :: done) (next :: rest)
  | _ => none

/-- Embeds `PipPlugin.correctPackageName`. -/
def PipPlugin.correctPackageName (cmd : String) : String :=
  match PipPlugin.pipPkgLoop [] (goFields cmd) with
  | some parts => goJoinSpace parts
  | none => cmd

/-- Embeds `PipPlugin.getQuickFix`. -/
def PipPlugin.getQuickFix (cmd output : String) : String :=
  let outputLower := goToLower output
  if goContains outputLower "pip: command not found" then
    "sudo apt install python3-pip && " ++ goReplace1 cmd "pip" "pip3"
  else if goContains outputLower "permission denied"
      && (!goContains cmd "--user" && !goContains cmd "sudo") then
    cmd ++ " --user"
  else if goContains outputLower "externally-managed-environment" then
    cmd ++ " --break-system-packages # or use: python3 -m venv myenv && source myenv/bin/activate && " ++ cmd
  else if goContains outputLower "could not find a version"
      || goContains outputLower "no matching distribution" then
    PipPlugin.correctPackageName cmd
  else if goContains cmd "pip " && !goContains cmd "pip3" then
    goReplace1 cmd "pip " "pip3 "
  else ""

/-- Models `PipPlugin.buildAIPrompt` (see `AptPlugin.buildAIPrompt`). -/
def PipPlugin.buildAIPrompt (cmd output : String) : String :=
  "pip-ai-prompt command: " ++ cmd ++ " output: " ++ output

/-- Embeds `PipPlugin.getAISuggestion`. -/
def PipPlugin.getAISuggestion (ai : AIOracle) (cmd output : String) : String × Bool :=
  match ai (PipPlugin.buildAIPrompt cmd output) with
  | some suggestion => (suggestion, true)
  | none => ("pip3 --help # Check the correct pip command syntax", true)

/-- Embeds `PipPlugin.Suggest`. -/
def PipPlugin.Suggest (ai : AIOracle) (cmd output : String) : String × Bool :=
  let quickFix := PipPlugin.getQuickFix cmd output
  if quickFix != "" then (quickFix, false)
  else PipPlugin.getAISuggestion ai cmd output

/-! ## Systemctl plugin (src/unnamed/part_006, second part) -/

/-- Embeds `systemctlErrors` from `SystemctlPlugin.Match`. -/
def SystemctlPlugin.systemctlErrors : List String :=
  ["unit not found", "failed to start", "failed to stop", "failed to restart",
   "failed to reload", "permission denied", "authentication required",
   "could not find", "unknown operation", "invalid option",
   "unit file not found", "masked unit", "inactive unit", "job failed"]

/-- Embeds `SystemctlPlugin.Match`. -/
def SystemctlPlugin.Match (cmd output : String) : Bool :=
  if !goContains (goToLower cmd) "systemctl" then false
  else containsAny output SystemctlPlugin.systemctlErrors

/-- The service-name table of `SystemctlPlugin.correctServiceName`. -/
def SystemctlPlugin.serviceCorrections : List (String × String) :=
  [("apache", "apache2"), ("httpd", "apache2"), ("nginx", "nginx"),
   ("ngnix", "nginx"), ("docker", "docker"), ("dockerd", "docker"),
   ("mysql", "mysql"), ("mariadb", "mariadb"), ("postgresql", "postgresql"),
   ("postgres", "postgresql"), ("redis", "redis-server"),
   ("redis-srv", "redis-server"), ("ssh", "ssh"), ("sshd", "ssh"),
   ("openssh", "ssh"), ("network", "networking"), ("net", "networking"),
   ("firewall", "ufw"), ("iptables", "iptables"), ("cron", "cron"),
   ("crond", "cron"), ("systemd", "systemd"), ("dbus", "dbus"),
   ("avahi", "avahi-daemon"), ("bluetooth", "bluetooth"), ("cups", "cups"),
   ("printer", "cups")]

/-- Embeds `SystemctlPlugin.correctServiceName`. -/
def SystemctlPlugin.correctServiceName (cmd : String) : String :=
  match goFields cmd with
  | t0 :: t1 :: serviceName :: rest =>
    let cleanService := goTrimSuffix serviceName ".service"
    match SystemctlPlugin.serviceCorrections.lookup cleanService with
    | some correction => goJoinSpace (t0 :: t1 :: (correction ++ ".service") :: rest)
    | none =>
      if !goHasSuffix serviceName ".service" then
        goJoinSpace (t0 :: t1 :: (cleanService ++ ".service") :: rest)
      else cmd
  | _ => cmd

/-- Embeds `SystemctlPlugin.getQuickFix`. -/
def SystemctlPlugin.getQuickFix (cmd output : String) : String :=
  let outputLower := goToLower output
  if (goContains outputLower "permission denied"
      || goContains outputLower "authentication required")
      && !goContains cmd "sudo" then
    "sudo " ++ cmd
  else if goContains outputLower "unit not found"
      || goContains outputLower "could not find" then
    SystemctlPlugin.correctServiceName cmd
  else if goContains outputLower "masked unit" then
    match goFields cmd with
    | _ :: _ :: serviceName :: _ =>
      "sudo systemctl unmask " ++ serviceName ++ " && " ++ cmd
    | _ => ""
  else ""

/-- Models `SystemctlPlugin.buildAIPrompt` (see `AptPlugin.buildAIPrompt`). -/
def SystemctlPlugin.buildAIPrompt (cmd output : String) : String :=
  "systemctl-ai-prompt command: " ++ cmd ++ " output: " ++ output

/-- Embeds `SystemctlPlugin.getAISuggestion`. -/
def SystemctlPlugin.getAISuggestion (ai : AIOracle) (cmd output : String) : String × Bool :=
  match ai (SystemctlPlugin.buildAIPrompt cmd output) with
  | some suggestion => (suggestion, true)
  | none => ("systemctl --help # Check the correct systemctl command syntax", true)

/-- Embeds `SystemctlPlugin.Suggest`. -/
def SystemctlPlugin.Suggest (ai : AIOracle) (cmd output : String) : String × Bool :=
  let quickFix := SystemctlPlugin.getQuickFix cmd output
  if quickFix != "" then (quickFix, false)
  else SystemctlPlugin.getAISuggestion ai cmd output

/-! ## Plugin interface and registry (src/unnamed/part_008) -/

/-- The closed set of built-in plugins behind the `plugins.Plugin`
interface. -/
inductive Plugin
  | apt | npm | git | docker | pip | systemctl
deriving DecidableEq

/-- Embeds `Plugin.Name` dispatch. -/
def Plugin.Name : Plugin → String
  | .apt => "apt"
  | .npm => "npm"
  | .git => "git"
  | .docker => "docker"
  | .pip => "pip"
  | .systemctl => "systemctl"

/-- Embeds `Plugin.Match` dispatch. -/
def Plugin.Match : Plugin → String → String → Bool
  | .apt => AptPlugin.Match
  | .npm => NpmPlugin.Match
  | .git => GitPlugin.Match
  | .docker => DockerPlugin.Match
  | .pip => PipPlugin.Match
  | .systemctl => SystemctlPlugin.Match

/-- Embeds `Plugin.Suggest` dispatch: the result text plus whether the plugin
invoked `ai.GetSuggestion`. The git plugin has no AI path. -/
def Plugin.Suggest (ai : AIOracle) : Plugin → String → String → String × Bool
  | .apt => AptPlugin.Suggest ai
  | .npm => NpmPlugin.Suggest ai
  | .git => fun cmd output => (GitPlugin.Suggest cmd output, false)
  | .docker => DockerPlugin.Suggest ai
  | .pip => PipPlugin.Suggest ai
  | .systemctl => SystemctlPlugin.Suggest ai

/-- Each plugin's deterministic rule layer: `getQuickFix` for the five
AI-backed plugins and the whole (rule-only) `Suggest` for git. -/
def Plugin.quickFix : Plugin → String → String → String
  | .apt => AptPlugin.getQuickFix
  | .npm => NpmPlugin.getQuickFix
  | .git => GitPlugin.Suggest
  | .docker => DockerPlugin.getQuickFix
  | .pip => PipPlugin.getQuickFix
  | .systemctl => SystemctlPlugin.getQuickFix

/-- Each AI-backed plugin's prompt builder (arbitrary for git, which never
prompts). -/
def Plugin.aiPrompt : Plugin → String → String → String
  | .apt => AptPlugin.buildAIPrompt
  | .npm => NpmPlugin.buildAIPrompt
  | .git => fun _ _ => ""
  | .docker => DockerPlugin.buildAIPrompt
  | .pip => PipPlugin.buildAIPrompt
  | .systemctl => SystemctlPlugin.buildAIPrompt

/-- The fixed text each AI-backed plugin returns when `ai.GetSuggestion`
errors (empty for git, which has no such fallback). -/
def Plugin.aiFallbackText : Plugin → String → String
  | .apt => fun cmd => "sudo apt update && apt search <package-name> && " ++ cmd
  | .npm => fun _ => "npm --help # Check the correct NPM command syntax"
  | .git => fun _ => ""
  | .docker => fun _ => "docker --help # Check the correct Docker command syntax"
  | .pip => fun _ => "pip3 --help # Check the correct pip command syntax"
  | .systemctl => fun _ => "systemctl --help # Check the correct systemctl command syntax"

/-- The fixed registry order of `LoadAllPlugins`. -/
def canonicalPlugins : List Plugin :=
  [.apt, .npm, .git, .docker, .pip, .systemctl]

/-- Embeds `plugins.LoadAllPlugins`, as a function of `config.EnablePlugins`: split
the enablement string on commas, trim each entry, and append the built-in
plugins in the fixed source order when their name is present. (With a nil
config the source returns the empty list; that degenerate case is outside
the embedding.) -/
def LoadAllPlugins (enable : String) : List Plugin :=
  let enabledNames := (goSplitComma enable).map goTrimSpace
  let l : List Plugin := []
  let l := l ++ (if enabledNames.contains "apt" then [Plugin.apt] else [])
  let l := l ++ (if enabledNames.contains "npm" then [Plugin.npm] else [])
  let l := l ++ (if enabledNames.contains "git" then [Plugin.git] else [])
  let l := l ++ (if enabledNames.contains "docker" then [Plugin.docker] else [])
  let l := l ++ (if enabledNames.contains "pip" then [Plugin.pip] else [])
  let l := l ++ (if enabledNames.contains "systemctl" then [Plugin.systemctl] else [])
  l

/-! ## Diagnosis engine (logger.go, package engine) -/

/-- The prompt `Engine.ProcessError` / `Engine.handleError` build for the
engine-level fallback call (`fmt.Sprintf` in the source). -/
def enginePrompt (command output : String) : String :=
  "Command: " ++ command ++ "\nError: " ++ output ++ "\nProvide a corrected command:"

/-- Result of `Engine.ProcessError` together with an instrumentation trace:
whether the engine-level `ai.GetSuggestion` fallback ran, and how many
`ai.GetSuggestion` calls happened in total (plugin-internal ones included). -/
structure EngineResult where
  result : Except String String
  engineAI : Bool
  aiCalls : Nat

/-- The plugin loop of `Engine.ProcessError` (with the accumulated
`ai.GetSuggestion` call count), falling back to the engine-level AI call
after the loop. -/
def processLoop (ai : AIOracle) (command output : String) :
    List Plugin → Nat → EngineResult
  | [], n =>
    match ai (enginePrompt command output) with
    | some suggestion => ⟨.ok suggestion, true, n + 1⟩
    | none => ⟨.error "failed to get AI suggestion", true, n + 1⟩
  | p :: ps, n =>
    if p.Match command output then
      let s := Plugin.Suggest ai p command output
      let n' := n + (if s.snd then 1 else 0)
      if s.fst != "" then ⟨.ok s.fst, false, n'⟩
      else processLoop ai command output ps n'
    else processLoop ai command output ps n

/-- Embeds `Engine.ProcessError`. -/
def ProcessError (ai : AIOracle) (plugins : List Plugin)
    (command output : String) : EngineResult :=
  processLoop ai command output plugins 0

/-- Embeds `errorIndicators` of `Engine.detectError`. -/
def errorIndicators : List String :=
  ["error:", "Error:", "ERROR:", "failed", "Failed", "FAILED", "not found",
   "Not found", "command not found", "is not a git command",
   "is not a docker command", "permission denied", "Permission denied",
   "E: Unable to locate package", "npm ERR!", "fatal:", "Fatal:"]

/-- Embeds `Engine.detectError`. -/
def detectError (output : String) : Bool :=
  let lowerOutput := goToLower output
  errorIndicators.any (fun ind => goContains lowerOutput (goToLower ind))

/-! ## Execution monitor (logger.go, package engine) -/

/-- The execution monitor's external effects as oracles: the AI client, the
auto-confirm flag, the stdin line read by `presentSuggestion` (`none` models
a read error), and whether running a tokenized corrective command exits
without error. -/
structure Env where
  ai : AIOracle
  autoConfirm : Bool
  stdinLine : Option String
  execOk : List String → Bool

/-- Embeds `Engine.executeSuggestion`: whitespace-tokenize the suggestion with
`strings.Fields` and run it; an empty token list is an immediate failure. -/
def executeSuggestion (env : Env) (suggestion : String) : Bool :=
  match goFields suggestion with
  | [] => false
  | parts => env.execOk parts

/-- Embeds `Engine.presentSuggestion`: auto-confirm executes at once; otherwise the
stdin line is lowered, trimmed and compared to y/yes, anything else (or a
read error) rejects. -/
def presentSuggestion (env : Env) (command output suggestion source : String) : Bool :=
  if env.autoConfirm then executeSuggestion env suggestion
  else
    match env.stdinLine with
    | none => false
    | some input =>
      let t := goTrimSpace (goToLower input)
      if t == "y" || t == "yes" then executeSuggestion env suggestion
      else false

/-- The plugin loop of `Engine.handleError`, falling back to the engine-level
AI call after the loop (an AI error or empty AI suggestion yields false). -/
def handleLoop (env : Env) (command output : String) : List Plugin → Bool
  | [] =>
    match env.ai (enginePrompt command output) with
    | none => false
    | some suggestion =>
      if suggestion != "" then presentSuggestion env command output suggestion "AI"
      else false
  | p :: ps =>
    if p.Match command output then
      let s := (Plugin.Suggest env.ai p command output).fst
      if s != "" then presentSuggestion env command output s p.Name
      else handleLoop env command output ps
    else handleLoop env command output ps

/-- Embeds `Engine.handleError`. -/
def handleError (env : Env) (plugins : List Plugin) (command output : String) : Bool :=
  handleLoop env command output plugins

/-- Result of `ExecuteWithMonitoring` with an instrumentation trace: the
returned error, whether `handleError` (the diagnosis cycle) ran, and the
output string passed to it (`""` when it did not run). -/
structure MonitorResult (ε : Type) where
  result : Option ε
  engineInvoked : Bool
  diagnosedOutput : String

/-- Embeds `ExecuteWithMonitoring`: `runErr` is the original command's error
(`none` for exit zero), `stdoutS`/`stderrS` the captured streams. On failure
the preferred output is stderr, or stdout when stderr is empty; diagnosis
runs only when `detectError` fires, and a successful `handleError` suppresses
the original error. On success stdout alone is scanned and the result is
always nil. -/
def ExecuteWithMonitoring {ε : Type} (env : Env) (plugins : List Plugin)
    (command : String) (runErr : Option ε) (stdoutS stderrS : String) :
    MonitorResult ε :=
  match runErr with
  | some e =>
    let output := if stderrS == "" then stdoutS else stderrS
    if detectError output then
      if handleError env plugins command output then ⟨none, true, output⟩
      else ⟨some e, true, output⟩
    else ⟨some e, false, ""⟩
  | none =>
    let output := stdoutS
    if detectError output then
      let _ := handleError env plugins command output
      ⟨none, true, output⟩
    else ⟨none, false, ""⟩

/-- Whether `presentSuggestion` reaches the execution step, extracted from
its control flow: the auto-confirm flag, or an affirmative (y/yes after
lowering and trimming) stdin line. -/
def confirmedB (env : Env) : Bool :=
  env.autoConfirm ||
    (match env.stdinLine with
     | none => false
     | some input =>
       let t := goTrimSpace (goToLower input)
       t == "y" || t == "yes")

/-! ## Supporting lemmas -/

/-- Membership of a successful association-list lookup. -/
theorem lookup_pair_mem {l : List (String × String)} {k v : String}
    (h : l.lookup k = some v) : (k, v) ∈ l := by
  rcases List.lookup_eq_some_iff.mp h with ⟨l₁, l₂, rfl, -⟩
  simp

/-- Appending to a nonempty string stays nonempty. -/
theorem append_ne_empty_left {a b : String} (h : a ≠ "") : a ++ b ≠ "" := by
  intro hc
  apply h
  have hd := congrArg String.data hc
  rw [String.data_append a b] at hd
  exact String.ext (List.append_eq_nil.mp hd).1

/-- Consuming a whitespace-free word extends the current accumulator. -/
theorem fieldsAux_append_word {w : List Char} (hw : ∀ c ∈ w, ws c = false) :
    ∀ (cur cs : List Char), fieldsAux cur (w ++ cs) = fieldsAux (cur ++ w) cs := by
  induction w with
  | nil => intro cur cs; simp
  | cons c w ih =>
    intro cur cs
    have hc : ws c = false := hw c (by simp)
    have hw' : ∀ x ∈ w, ws x = false := fun x hx => hw x (by simp [hx])
    rw [List.cons_append, fieldsAux, if_neg (by simp [hc]), ih hw' (cur ++ [c]) cs]
    simp

/-- Splitting a single-space join of nonempty whitespace-free words recovers
the words. -/
theorem fieldsAux_join : ∀ (parts : List (List Char)),
    (∀ w ∈ parts, w ≠ [] ∧ ∀ c ∈ w, ws c = false) →
    fieldsAux [] (joinSpaceL parts) = parts := by
  intro parts
  induction parts with
  | nil => intro _; rfl
  | cons w rest ih =>
    intro h
    have hw := h w (by simp)
    have hrest : ∀ u ∈ rest, u ≠ [] ∧ ∀ c ∈ u, ws c = false :=
      fun u hu => h u (by simp [hu])
    cases rest with
    | nil =>
      have h1 := fieldsAux_append_word hw.2 [] []
      simp only [List.append_nil, List.nil_append] at h1
      show fieldsAux [] (joinSpaceL [w]) = [w]
      rw [joinSpaceL, h1, fieldsAux, if_neg (by simp [hw.1])]
    | cons r rs =>
      have h1 := fieldsAux_append_word hw.2 [] (' ' :: joinSpaceL (r :: rs))
      simp only [List.nil_append] at h1
      show fieldsAux [] (w ++ ' ' :: joinSpaceL (r :: rs)) = w :: r :: rs
      rw [h1, fieldsAux, if_pos (by decide), if_neg (by simp [hw.1]), ih hrest]

/-- Tokens produced by `fieldsAux` are nonempty and whitespace-free. -/
theorem fieldsAux_mem : ∀ (s cur : List Char), (∀ c ∈ cur, ws c = false) →
    ∀ w ∈ fieldsAux cur s, w ≠ [] ∧ ∀ c ∈ w, ws c = false := by
  intro s
  induction s with
  | nil =>
    intro cur hcur w hw
    rw [fieldsAux] at hw
    by_cases hc : cur.isEmpty
    · simp [hc] at hw
    · rw [if_neg hc] at hw
      rcases List.mem_singleton.mp hw with rfl
      exact ⟨by simpa [List.isEmpty_iff] using hc, hcur⟩
  | cons c cs ih =>
    intro cur hcur w hw
    rw [fieldsAux] at hw
    by_cases hwc : ws c
    · rw [if_pos hwc] at hw
      by_cases hc : cur.isEmpty
      · rw [if_pos hc] at hw
        exact ih [] (by simp) w hw
      · rw [if_neg hc] at hw
        rcases List.mem_cons.mp hw with rfl | hw'
        · exact ⟨by simpa [List.isEmpty_iff] using hc, hcur⟩
        · exact ih [] (by simp) w hw'
    · rw [if_neg hwc] at hw
      refine ih (cur ++ [c]) ?_ w hw
      intro x hx
      rcases List.mem_append.mp hx with hx' | hx'
      · exact hcur x hx'
      · rcases List.mem_singleton.mp hx' with rfl
        exact Bool.not_eq_true _ ▸ (by simpa using hwc)

/-- Tokens produced by `goFields` are nonempty and whitespace-free. -/
theorem goFields_mem {s w : String} (h : w ∈ goFields s) : w ≠ "" ∧ noWS w = true := by
  unfold goFields at h
  rcases List.mem_map.mp h with ⟨l, hl, rfl⟩
  have hm := fieldsAux_mem s.data [] (by simp) l hl
  constructor
  · intro hcon
    exact hm.1 (by simpa using congrArg String.data hcon)
  · unfold noWS
    simp only [List.all_eq_true]
    intro c hc
    simp [hm.2 c hc]

/-- Re-tokenizing the single-space join of nonempty whitespace-free tokens
recovers the tokens. -/
theorem goFields_goJoinSpace {parts : List String}
    (h : ∀ w ∈ parts, w ≠ "" ∧ noWS w = true) :
    goFields (goJoinSpace parts) = parts := by
  unfold goFields goJoinSpace
  have hj : fieldsAux [] (joinSpaceL (parts.map String.data)) = parts.map String.data := by
    refine fieldsAux_join _ ?_
    intro w hw
    rcases List.mem_map.mp hw with ⟨u, hu, rfl⟩
    have hu' := h u hu
    constructor
    · intro hcon
      exact hu'.1 (String.ext (by simpa using hcon))
    · intro c hc
      have := hu'.2
      unfold noWS at this
      simp only [List.all_eq_true] at this
      simpa using this c hc
  rw [show (String.mk (joinSpaceL (List.map String.data parts))).data
        = joinSpaceL (List.map String.data parts) from rfl, hj]
  rw [List.map_map, show (String.mk ∘ String.data) = id from funext fun s => rfl, List.map_id]

/-- Engine loop: when the engine-level fallback fires, every plugin in the
traversed list either failed to match or suggested the empty string. -/
theorem processLoop_engineAI {ai : AIOracle} {command output : String} :
    ∀ (l : List Plugin) (n : Nat), (processLoop ai command output l n).engineAI = true →
    ∀ p ∈ l, Plugin.Match p command output = false ∨
      (Plugin.Suggest ai p command output).fst = "" := by
  intro l
  induction l with
  | nil => intro n _ p hp; exact absurd hp (List.not_mem_nil p)
  | cons q ps ih =>
    intro n h p hp
    rw [processLoop] at h
    by_cases hm : q.Match command output
    · rw [if_pos hm] at h
      by_cases hs : (Plugin.Suggest ai q command output).fst = ""
      · have h' : (processLoop ai command output ps
            (n + if (Plugin.Suggest ai q command output).snd then 1 else 0)).engineAI = true := by
          simpa [hs] using h
        rcases List.mem_cons.mp hp with rfl | hp'
        · exact Or.inr hs
        · exact ih _ h' p hp'
      · simp only [bne_iff_ne, ne_eq, hs, not_false_eq_true, if_pos] at h
        exact absurd h (by simp)
    · rw [if_neg hm] at h
      rcases List.mem_cons.mp hp with rfl | hp'
      · exact Or.inl (by simpa using hm)
      · exact ih _ h p hp'

/-- Engine loop: a prefix of plugins that all fail (no match, or an empty
suggestion) is skipped, only advancing the call counter. -/
theorem processLoop_skip {ai : AIOracle} {command output : String} :
    ∀ (pre : List Plugin) (n : Nat),
      (∀ q ∈ pre, Plugin.Match q command output = false ∨
        (Plugin.Suggest ai q command output).fst = "") →
      ∃ m, ∀ l, processLoop ai command output (pre ++ l) n
        = processLoop ai command output l m := by
  intro pre
  induction pre with
  | nil => intro n _; exact ⟨n, fun _ => rfl⟩
  | cons q ps ih =>
    intro n hfail
    have hq := hfail q (List.mem_cons_self q ps)
    have hrest : ∀ r ∈ ps, Plugin.Match r command output = false ∨
        (Plugin.Suggest ai r command output).fst = "" :=
      fun r hr => hfail r (List.mem_cons_of_mem q hr)
    by_cases hm : q.Match command output
    · have hs : (Plugin.Suggest ai q command output).fst = "" := by
        rcases hq with hq | hq
        · exact absurd hm (by simp [hq])
        · exact hq
      obtain ⟨m, hrec⟩ := ih (n + if (Plugin.Suggest ai q command output).snd then 1 else 0) hrest
      refine ⟨m, fun l => ?_⟩
      rw [List.cons_append, processLoop, if_pos hm]
      simpa [hs] using hrec l
    · obtain ⟨m, hrec⟩ := ih n hrest
      refine ⟨m, fun l => ?_⟩
      rw [List.cons_append, processLoop, if_neg hm]
      exact hrec l

/-- Computation rule of the docker subcommand correction on a tokenized
command. -/
theorem correctDockerCommand_eq (cmd t0 t1 : String) (rest : List String)
    (h : goFields cmd = t0 :: t1 :: rest) :
    DockerPlugin.correctDockerCommand cmd =
      (match DockerPlugin.cmdCorrections.lookup t1 with
       | some c => goJoinSpace (t0 :: c :: rest)
       | none => cmd) := by
  unfold DockerPlugin.correctDockerCommand
  rw [h]

/-- Computation rule of the npm subcommand correction on a tokenized
command. -/
theorem correctNpmCommand_eq (cmd t0 t1 : String) (rest : List String)
    (h : goFields cmd = t0 :: t1 :: rest) :
    NpmPlugin.correctNpmCommand cmd =
      (match NpmPlugin.cmdCorrections.lookup t1 with
       | some c => goJoinSpace (t0 :: c :: rest)
       | none => cmd) := by
  unfold NpmPlugin.correctNpmCommand
  rw [h]

/-- Every value of the docker subcommand table is a nonempty whitespace-free
token on which a second lookup is either a miss or the identity. -/
theorem dockerCmdCorrections_vals : ∀ v ∈ DockerPlugin.cmdCorrections.map Prod.snd,
    v ≠ "" ∧ noWS v = true ∧
      (DockerPlugin.cmdCorrections.lookup v = none ∨
       DockerPlugin.cmdCorrections.lookup v = some v) := by decide

/-- Registry building is filtering the canonical plugin order by membership
of the trimmed comma-separated enablement entries. -/
theorem loadAllPlugins_eq_filter (s : String) :
    LoadAllPlugins s = canonicalPlugins.filter
      (fun p => ((goSplitComma s).map goTrimSpace).contains (Plugin.Name p)) := by
  unfold LoadAllPlugins canonicalPlugins
  cases h1 : ((goSplitComma s).map goTrimSpace).contains "apt" <;>
  cases h2 : ((goSplitComma s).map goTrimSpace).contains "npm" <;>
  cases h3 : ((goSplitComma s).map goTrimSpace).contains "git" <;>
  cases h4 : ((goSplitComma s).map goTrimSpace).contains "docker" <;>
  cases h5 : ((goSplitComma s).map goTrimSpace).contains "pip" <;>
  cases h6 : ((goSplitComma s).map goTrimSpace).contains "systemctl" <;>
  simp only [List.filter_cons, List.filter_nil, Plugin.Name, h1, h2, h3, h4, h5, h6] <;>
  simp

/-! ## Claim theorems -/

/-- C1 (amended): the engine-level fallback call to `ai.GetSuggestion` in
`ProcessError` happens only when every matcher in the registry either does
not match the pair or returns an empty suggestion for it. (The original
claim is refuted by `C1_counterexample`: matchers other than git call
`ai.GetSuggestion` themselves inside `Suggest` when no quick-fix rule
applies, so the generative client can be consulted even though a matcher
matched and produced a non-empty suggestion.) -/
theorem C1_theorem (ai : AIOracle) (plugins : List Plugin) (command output : String)
    (h : (ProcessError ai plugins command output).engineAI = true) :
    ∀ p ∈ plugins, Plugin.Match p command output = false ∨
      (Plugin.Suggest ai p command output).fst = "" :=
  processLoop_engineAI plugins 0 h

/-- C1 witness: with an empty effective registry the engine fallback runs
and the per-plugin conclusion holds at the git plugin. -/
theorem C1_witness :
    (ProcessError (fun _ => none) [Plugin.git] "ls -la" "boom").engineAI = true ∧
    (Plugin.Match Plugin.git "ls -la" "boom" = false ∨
      (Plugin.Suggest (fun _ => none) Plugin.git "ls -la" "boom").fst = "") :=
  ⟨by decide, C1_theorem (fun _ => none) [Plugin.git] "ls -la" "boom" (by decide)
      Plugin.git (by decide)⟩

/-- C1 counterexample: on `apt install foo` with output `unmet dependencies`
the apt matcher matches and returns the non-empty AI-provided suggestion,
yet `ai.GetSuggestion` was consulted (from inside `AptPlugin.Suggest`) —
refuting the claim that it is consulted only when every matcher fails. -/
theorem C1_counterexample :
    (ProcessError (fun _ => some "echo fix") [Plugin.apt]
        "apt install foo" "unmet dependencies").aiCalls = 1 ∧
    Plugin.Match Plugin.apt "apt install foo" "unmet dependencies" = true ∧
    (Plugin.Suggest (fun _ => some "echo fix") Plugin.apt
        "apt install foo" "unmet dependencies").fst = "echo fix" := by
  refine ⟨?_, ?_, ?_⟩ <;> decide

/-- C2 (amended): on a matched pair where no quick-fix rule applies, the git
matcher returns the empty string, while every other matcher consults the AI
client and returns its reply — or a fixed, non-empty, tool-specific fallback
text when the AI call errors. Matchers are total functions and never
error. (The original claim that every rule-less `Suggest` is empty is
refuted by `C2_counterexample`.) -/
theorem C2_theorem (p : Plugin) (ai : AIOracle) (cmd output : String)
    (h : Plugin.quickFix p cmd output = "") :
    (Plugin.Suggest ai p cmd output).fst =
      (match p with
       | Plugin.git => ""
       | _ => (ai (Plugin.aiPrompt p cmd output)).getD (Plugin.aiFallbackText p cmd)) ∧
    (p ≠ Plugin.git → Plugin.aiFallbackText p cmd ≠ "") := by
  cases p
  case git =>
    refine ⟨?_, fun hne => absurd rfl hne⟩
    simpa [Plugin.Suggest] using h
  case apt =>
    have h' : AptPlugin.getQuickFix cmd output = "" := h
    refine ⟨?_, fun _ => ?_⟩
    · show (AptPlugin.Suggest ai cmd output).fst = _
      unfold AptPlugin.Suggest AptPlugin.getAISuggestion
      rw [h']
      cases hai : ai (AptPlugin.buildAIPrompt cmd output) <;>
        simp [Plugin.aiPrompt, Plugin.aiFallbackText, hai]
    · show ("sudo apt update && apt search <package-name> && " ++ cmd : String) ≠ ""
      exact append_ne_empty_left (by decide)
  case npm =>
    have h' : NpmPlugin.getQuickFix cmd output = "" := h
    refine ⟨?_, fun _ => ?_⟩
    · show (NpmPlugin.Suggest ai cmd output).fst = _
      unfold NpmPlugin.Suggest NpmPlugin.getAISuggestion
      rw [h']
      cases hai : ai (NpmPlugin.buildAIPrompt cmd output) <;>
        simp [Plugin.aiPrompt, Plugin.aiFallbackText, hai]
    · show ("npm --help # Check the correct NPM command syntax" : String) ≠ ""
      decide
  case docker =>
    have h' : DockerPlugin.getQuickFix cmd output = "" := h
    refine ⟨?_, fun _ => ?_⟩
    · show (DockerPlugin.Suggest ai cmd output).fst = _
      unfold DockerPlugin.Suggest DockerPlugin.getAISuggestion
      rw [h']
      cases hai : ai (DockerPlugin.buildAIPrompt cmd output) <;>
        simp [Plugin.aiPrompt, Plugin.aiFallbackText, hai]
    · show ("docker --help # Check the correct Docker command syntax" : String) ≠ ""
      decide
  case pip =>
    have h' : PipPlugin.getQuickFix cmd output = "" := h
    refine ⟨?_, fun _ => ?_⟩
    · show (PipPlugin.Suggest ai cmd output).fst = _
      unfold PipPlugin.Suggest PipPlugin.getAISuggestion
      rw [h']
      cases hai : ai (PipPlugin.buildAIPrompt cmd output) <;>
        simp [Plugin.aiPrompt, Plugin.aiFallbackText, hai]
    · show ("pip3 --help # Check the correct pip command syntax" : String) ≠ ""
      decide
  case systemctl =>
    have h' : SystemctlPlugin.getQuickFix cmd output = "" := h
    refine ⟨?_, fun _ => ?_⟩
    · show (SystemctlPlugin.Suggest ai cmd output).fst = _
      unfold SystemctlPlugin.Suggest SystemctlPlugin.getAISuggestion
      rw [h']
      cases hai : ai (SystemctlPlugin.buildAIPrompt cmd output) <;>
        simp [Plugin.aiPrompt, Plugin.aiFallbackText, hai]
    · show ("systemctl --help # Check the correct systemctl command syntax" : String) ≠ ""
      decide

/-- C2 witness: the apt matcher on a rule-less pair with an erroring AI
returns its fixed non-empty fallback text. -/
theorem C2_witness :
    (Plugin.Suggest (fun _ => none) Plugin.apt "apt install foo" "unmet dependencies").fst
        = "sudo apt update && apt search <package-name> && apt install foo" ∧
    Plugin.aiFallbackText Plugin.apt "apt install foo" ≠ "" := by
  have h := C2_theorem Plugin.apt (fun _ => none) "apt install foo" "unmet dependencies" (by decide)
  exact ⟨h.1.trans (by decide), h.2 (by decide)⟩

/-- C2 counterexample: the apt matcher matches `apt install foo` with output
`unmet dependencies`, no quick-fix rule applies, and yet `Suggest` (with the
AI erroring) returns a non-empty fallback instead of the empty string. -/
theorem C2_counterexample :
    AptPlugin.Match "apt install foo" "unmet dependencies" = true ∧
    AptPlugin.getQuickFix "apt install foo" "unmet dependencies" = "" ∧
    (AptPlugin.Suggest (fun _ => none) "apt install foo" "unmet dependencies").fst
      = "sudo apt update && apt search <package-name> && apt install foo" := by
  refine ⟨?_, ?_, ?_⟩ <;> decide

/-- C3: if every matcher before `p` in registry order fails (no match, or an
empty suggestion), `p` matches and suggests non-empty text, then
`ProcessError` returns exactly that suggestion, and the plugins after `p`
are irrelevant: the whole result is unchanged under any replacement of the
tail, so later matchers are never consulted. -/
theorem C3_theorem (ai : AIOracle) (pre : List Plugin) (p : Plugin) (post : List Plugin)
    (command output : String)
    (hpre : ∀ q ∈ pre, Plugin.Match q command output = false ∨
      (Plugin.Suggest ai q command output).fst = "")
    (hm : Plugin.Match p command output = true)
    (hs : (Plugin.Suggest ai p command output).fst ≠ "") :
    (ProcessError ai (pre ++ p :: post) command output).result
        = Except.ok (Plugin.Suggest ai p command output).fst ∧
    ∀ post', ProcessError ai (pre ++ p :: post) command output
        = ProcessError ai (pre ++ p :: post') command output := by
  obtain ⟨m, hskip⟩ := processLoop_skip pre 0 hpre
  have hstep : ∀ l, processLoop ai command output (p :: l) m
      = ⟨Except.ok (Plugin.Suggest ai p command output).fst, false,
         m + if (Plugin.Suggest ai p command output).snd then 1 else 0⟩ := by
    intro l
    rw [processLoop, if_pos hm]
    simp [hs]
  constructor
  · show (processLoop ai command output (pre ++ p :: post) 0).result = _
    rw [hskip (p :: post), hstep]
  · intro post'
    show processLoop ai command output (pre ++ p :: post) 0
        = processLoop ai command output (pre ++ p :: post') 0
    rw [hskip (p :: post), hskip (p :: post'), hstep, hstep]

/-- C3 witness: with registry `[apt, npm]` (empty failing prefix) the engine
returns the apt suggestion and removing the npm tail changes nothing. -/
theorem C3_witness :
    (ProcessError (fun _ => none) ([] ++ Plugin.apt :: [Plugin.npm])
        "apt install node" "E: Unable to locate package node").result
      = Except.ok (Plugin.Suggest (fun _ => none) Plugin.apt
          "apt install node" "E: Unable to locate package node").fst ∧
    ProcessError (fun _ => none) ([] ++ Plugin.apt :: [Plugin.npm])
        "apt install node" "E: Unable to locate package node"
      = ProcessError (fun _ => none) ([] ++ Plugin.apt :: [])
          "apt install node" "E: Unable to locate package node" := by
  have h := C3_theorem (fun _ => none) [] Plugin.apt [Plugin.npm]
    "apt install node" "E: Unable to locate package node"
    (by decide) (by decide) (by decide)
  exact ⟨h.1, h.2 []⟩

/-- C4 (amended): the registry built by `LoadAllPlugins` from a
comma-separated enablement string (entries trimmed of surrounding
whitespace) is a duplicate-free sublist of the fixed canonical order
apt, npm, git, docker, pip, systemctl, and a plugin appears in it exactly
when its name is one of the trimmed comma-split entries — so unknown names
are silently ignored, duplicates collapse, and the order of the entries in
the input is irrelevant. (The original claim also admitted purely
whitespace-separated input; `C4_counterexample` refutes that reading.) -/
theorem C4_theorem (s : String) :
    (LoadAllPlugins s).Sublist canonicalPlugins ∧ (LoadAllPlugins s).Nodup ∧
    ∀ p : Plugin, p ∈ LoadAllPlugins s ↔
      Plugin.Name p ∈ (goSplitComma s).map goTrimSpace := by
  rw [loadAllPlugins_eq_filter s]
  refine ⟨List.filter_sublist _, (by decide : canonicalPlugins.Nodup).filter _, ?_⟩
  intro p
  rw [List.mem_filter]
  constructor
  · rintro ⟨-, hc⟩
    simpa using hc
  · intro hm
    exact ⟨by cases p <;> simp [canonicalPlugins], by simpa using hm⟩

/-- C4 counterexample: the whitespace-separated enablement list `apt npm`
names two known matchers, yet the built registry is empty — `LoadAllPlugins`
splits only on commas, so whitespace-separated input is not recognized. -/
theorem C4_counterexample :
    LoadAllPlugins "apt npm" = [] := by decide

/-- C5 (amended): when a command tokenizes to at least two fields and the
second token hits the npm (resp. docker) verb-typo table, the returned
correction consists of exactly the original tokens in order with only the
second replaced by its table entry, re-joined with single spaces. Token
content and order are preserved, but the original whitespace runs are
normalized to single spaces — not preserved verbatim, as
`C5_counterexample` shows. -/
theorem C5_theorem (cmd t0 t1 : String) (rest : List String)
    (h : goFields cmd = t0 :: t1 :: rest) :
    (∀ c, NpmPlugin.cmdCorrections.lookup t1 = some c →
       NpmPlugin.correctNpmCommand cmd = goJoinSpace (t0 :: c :: rest)) ∧
    (∀ c, DockerPlugin.cmdCorrections.lookup t1 = some c →
       DockerPlugin.correctDockerCommand cmd = goJoinSpace (t0 :: c :: rest)) := by
  constructor
  · intro c hc; rw [correctNpmCommand_eq cmd t0 t1 rest h, hc]
  · intro c hc; rw [correctDockerCommand_eq cmd t0 t1 rest h, hc]

/-- C5 witness: single-space commands are corrected in place, with only the
mistyped second token replaced. -/
theorem C5_witness :
    goFields "npm instal express" = ["npm", "instal", "express"] ∧
    NpmPlugin.correctNpmCommand "npm instal express"
      = goJoinSpace ["npm", "install", "express"] ∧
    DockerPlugin.correctDockerCommand "docker ru ubuntu"
      = goJoinSpace ["docker", "run", "ubuntu"] :=
  ⟨by decide,
   ( C5_theorem "npm instal express" "npm" "instal" ["express"] (by decide)).1
      "install" (by decide),
   ( C5_theorem "docker ru ubuntu" "docker" "ru" ["ubuntu"] (by decide)).2
      "run" (by decide)⟩

/-- C5 counterexample: a command with a double space between tokens is
matched and corrected by the npm matcher, but the suggestion collapses the
double space — it is not the original command with only the mismatched
token replaced and the whitespace structure preserved verbatim. -/
theorem C5_counterexample :
    NpmPlugin.Match "npm  instal express" "Unknown command: instal" = true ∧
    (NpmPlugin.Suggest (fun _ => none) "npm  instal express" "Unknown command: instal").fst
      = "npm install express" ∧
    (NpmPlugin.Suggest (fun _ => none) "npm  instal express" "Unknown command: instal").fst
      ≠ "npm  install express" := by
  refine ⟨?_, ?_, ?_⟩ <;> decide

/-- C6 (amended): for the apt, npm, docker, pip and systemctl matchers,
detection is fully case-insensitive — `Match` depends only on the lowered
command and lowered output; for the git matcher only the output side is
case-insensitive, since its command check is the case-sensitive prefix test
`strings.HasPrefix cmd "git "` (refuted on the command side by
`C6_counterexample`). -/
theorem C6_theorem (p : Plugin) (cmd cmd' output output' : String)
    (hc : goToLower cmd = goToLower cmd') (ho : goToLower output = goToLower output') :
    (p ≠ Plugin.git → Plugin.Match p cmd output = Plugin.Match p cmd' output') ∧
    Plugin.Match Plugin.git cmd output = Plugin.Match Plugin.git cmd output' := by
  have hca : ∀ pats, containsAny output pats = containsAny output' pats := by
    intro pats; unfold containsAny; rw [ho]
  constructor
  · intro hne
    cases p
    case git => exact absurd rfl hne
    case apt =>
      show AptPlugin.Match cmd output = AptPlugin.Match cmd' output'
      unfold AptPlugin.Match; rw [hc, hca]
    case npm =>
      show NpmPlugin.Match cmd output = NpmPlugin.Match cmd' output'
      unfold NpmPlugin.Match; rw [hc, hca]
    case docker =>
      show DockerPlugin.Match cmd output = DockerPlugin.Match cmd' output'
      unfold DockerPlugin.Match; rw [hc, hca]
    case pip =>
      show PipPlugin.Match cmd output = PipPlugin.Match cmd' output'
      unfold PipPlugin.Match; rw [hc, hca]
    case systemctl =>
      show SystemctlPlugin.Match cmd output = SystemctlPlugin.Match cmd' output'
      unfold SystemctlPlugin.Match; rw [hc, hca]
  · show GitPlugin.Match cmd output = GitPlugin.Match cmd output'
    unfold GitPlugin.Match; rw [hca]

/-- C6 witness: recasing both command and output leaves the apt match
decision unchanged. -/
theorem C6_witness :
    Plugin.Match Plugin.apt "APT install foo" "Permission Denied"
      = Plugin.Match Plugin.apt "apt INSTALL foo" "permission denied" :=
  (C6_theorem Plugin.apt "APT install foo" "apt INSTALL foo"
      "Permission Denied" "permission denied" (by decide) (by decide)).1 (by decide)

/-- C6 counterexample: recasing only the command flips the git matcher from
matching to not matching, so detection is not case-insensitive for every
matcher. -/
theorem C6_counterexample :
    GitPlugin.Match "git checout main" "checout is not a git command" = true ∧
    GitPlugin.Match "GIT checout main" "checout is not a git command" = false := by
  refine ⟨?_, ?_⟩ <;> decide

/-- C7 (amended): the docker verb-typo correction is idempotent as a
function — applying `correctDockerCommand` to its own output returns that
output unchanged, because every table value that is itself a key maps to
itself. The apt package rule has no such property: when the corrected token
is again a table key (node ↦ nodejs npm) re-running `Suggest` triggers the
same rule and grows the command, as `C7_counterexample` shows, refuting the
original claim. -/
theorem C7_theorem (cmd : String) :
    DockerPlugin.correctDockerCommand (DockerPlugin.correctDockerCommand cmd)
      = DockerPlugin.correctDockerCommand cmd := by
  rcases hf : goFields cmd with _ | ⟨t0, _ | ⟨t1, rest⟩⟩
  · have h : DockerPlugin.correctDockerCommand cmd = cmd := by
      unfold DockerPlugin.correctDockerCommand; rw [hf]
    rw [h, h]
  · have h : DockerPlugin.correctDockerCommand cmd = cmd := by
      unfold DockerPlugin.correctDockerCommand; rw [hf]
    rw [h, h]
  · rcases hl : DockerPlugin.cmdCorrections.lookup t1 with _ | c
    · have h : DockerPlugin.correctDockerCommand cmd = cmd := by
        rw [correctDockerCommand_eq cmd t0 t1 rest hf, hl]
      rw [h, h]
    · have h : DockerPlugin.correctDockerCommand cmd = goJoinSpace (t0 :: c :: rest) := by
        rw [correctDockerCommand_eq cmd t0 t1 rest hf, hl]
      have hmem : ∀ w ∈ goFields cmd, w ≠ "" ∧ noWS w = true :=
        fun w hw => goFields_mem hw
      have ht0 : t0 ≠ "" ∧ noWS t0 = true :=
        hmem t0 (by rw [hf]; exact List.mem_cons_self _ _)
      have hrest : ∀ w ∈ rest, w ≠ "" ∧ noWS w = true := by
        intro w hw
        exact hmem w (by rw [hf]; simp [hw])
      have hcv := dockerCmdCorrections_vals c
        (by simpa using List.mem_map_of_mem Prod.snd (lookup_pair_mem hl))
      have hfj : goFields (goJoinSpace (t0 :: c :: rest)) = t0 :: c :: rest := by
        refine goFields_goJoinSpace ?_
        intro w hw
        rcases List.mem_cons.mp hw with rfl | hw
        · exact ht0
        rcases List.mem_cons.mp hw with rfl | hw
        · exact ⟨hcv.1, hcv.2.1⟩
        · exact hrest w hw
      rw [h, correctDockerCommand_eq _ t0 c rest hfj]
      rcases hcv.2.2 with hn | hsome
      · rw [hn]
      · rw [hsome]

/-- C7 counterexample: the apt package rule corrects `apt install node` to
`apt install nodejs npm`, and re-running `Suggest` on that corrected command
with the same output triggers the same rule again (the quick fix is still
non-empty), producing `apt install nodejs npm npm`. -/
theorem C7_counterexample :
    (AptPlugin.Suggest (fun _ => none) "apt install node"
        "E: Unable to locate package node").fst = "apt install nodejs npm" ∧
    (AptPlugin.Suggest (fun _ => none) "apt install nodejs npm"
        "E: Unable to locate package node").fst = "apt install nodejs npm npm" ∧
    AptPlugin.getQuickFix "apt install nodejs npm" "E: Unable to locate package node" ≠ "" := by
  refine ⟨?_, ?_, ?_⟩ <;> decide

/-- C8 (amended): the diagnosis cycle (`handleError`) runs on a non-zero
exit exactly when the preferred output stream — captured stderr, or captured
stdout when stderr is empty — contains known error indicators, and on a
zero exit exactly when captured stdout contains them; whenever it runs, the
output passed to it is that preferred stream (stdout on the zero-exit path,
stderr being ignored there). (The original claim that diagnosis runs on
every non-zero exit is refuted by `C8_counterexample`.) -/
theorem C8_theorem {ε : Type} (env : Env) (plugins : List Plugin) (command : String)
    (runErr : Option ε) (stdoutS stderrS : String) :
    ((ExecuteWithMonitoring env plugins command runErr stdoutS stderrS).engineInvoked =
      match runErr with
      | some _ => detectError (if stderrS == "" then stdoutS else stderrS)
      | none => detectError stdoutS) ∧
    ((ExecuteWithMonitoring env plugins command runErr stdoutS stderrS).engineInvoked = true →
      (ExecuteWithMonitoring env plugins command runErr stdoutS stderrS).diagnosedOutput =
        match runErr with
        | some _ => if stderrS == "" then stdoutS else stderrS
        | none => stdoutS) := by
  cases runErr with
  | none =>
    unfold ExecuteWithMonitoring
    by_cases hd : detectError stdoutS <;> simp [hd]
  | some e =>
    unfold ExecuteWithMonitoring
    generalize (if stderrS == "" then stdoutS else stderrS) = out
    by_cases hd : detectError out <;>
      by_cases hh : handleError env plugins command out <;>
      simp [hd, hh]

/-- C8 witness: a failed command whose stderr contains an indicator has the
diagnosis engine invoked on exactly that stderr text. -/
theorem C8_witness :
    (ExecuteWithMonitoring ⟨fun _ => none, false, none, fun _ => false⟩ []
        "somecmd" (some (0 : Nat)) "" "permission denied").diagnosedOutput
      = "permission denied" :=
  ((C8_theorem ⟨fun _ => none, false, none, fun _ => false⟩ []
      "somecmd" (some (0 : Nat)) "" "permission denied").2 (by decide)).trans (by decide)

/-- C8 counterexample: a command that exits non-zero with output containing
no known error indicator never reaches the diagnosis engine — the original
error is returned with no diagnosis cycle — refuting the claim that the
engine is invoked whenever the command exits non-zero. -/
theorem C8_counterexample :
    (ExecuteWithMonitoring ⟨fun _ => none, false, none, fun _ => false⟩ []
        "somecmd" (some (0 : Nat)) "" "boom").engineInvoked = false ∧
    (ExecuteWithMonitoring ⟨fun _ => none, false, none, fun _ => false⟩ []
        "somecmd" (some (0 : Nat)) "" "boom").result = some 0 := by
  refine ⟨?_, ?_⟩ <;> decide

/-- C9: a suggestion is executed exactly when confirmed (auto-confirm, or an
affirmative stdin line), execution whitespace-tokenizes the suggestion with
`strings.Fields` and runs the tokens (empty tokenization fails immediately);
on the failure path with indicators present, the monitor returns nil when
the diagnosis cycle succeeds (suppressing the original failure) and the
original error otherwise — its result is always nil or the original error,
never a secondary failure. -/
theorem C9_theorem {ε : Type} (env : Env) (plugins : List Plugin)
    (command stdoutS stderrS suggestion source : String) (e : ε)
    (hdet : detectError (if stderrS == "" then stdoutS else stderrS) = true) :
    (presentSuggestion env command (if stderrS == "" then stdoutS else stderrS) suggestion source
        = (confirmedB env && executeSuggestion env suggestion)) ∧
    (executeSuggestion env suggestion
        = (!(goFields suggestion).isEmpty && env.execOk (goFields suggestion))) ∧
    ((ExecuteWithMonitoring env plugins command (some e) stdoutS stderrS).result
        = if handleError env plugins command (if stderrS == "" then stdoutS else stderrS)
          then none else some e) ∧
    ((ExecuteWithMonitoring env plugins command (some e) stdoutS stderrS).result = none ∨
     (ExecuteWithMonitoring env plugins command (some e) stdoutS stderrS).result = some e) := by
  have h1 : presentSuggestion env command (if stderrS == "" then stdoutS else stderrS) suggestion source
      = (confirmedB env && executeSuggestion env suggestion) := by
    unfold presentSuggestion confirmedB
    cases hac : env.autoConfirm
    · cases hline : env.stdinLine with
      | none => simp
      | some input =>
        by_cases ht : (goTrimSpace (goToLower input) == "y"
            || goTrimSpace (goToLower input) == "yes") = true <;> simp [ht]
    · simp
  have h2 : executeSuggestion env suggestion
      = (!(goFields suggestion).isEmpty && env.execOk (goFields suggestion)) := by
    unfold executeSuggestion
    cases hf : goFields suggestion <;> simp
  have h3 : (ExecuteWithMonitoring env plugins command (some e) stdoutS stderrS).result
      = if handleError env plugins command (if stderrS == "" then stdoutS else stderrS)
        then none else some e := by
    simp only [ExecuteWithMonitoring]
    rw [if_pos hdet]
    split <;> simp_all <;> split <;> simp_all
  refine ⟨h1, h2, h3, ?_⟩
  rw [h3]
  by_cases hh : handleError env plugins command (if stderrS == "" then stdoutS else stderrS) <;>
    simp [hh]

/-- C9 witness: with auto-confirm on and a corrective execution that exits
zero, the monitor suppresses the original non-zero exit and reports overall
success. -/
theorem C9_witness :
    (ExecuteWithMonitoring ⟨fun _ => none, true, none, fun _ => true⟩ [Plugin.apt]
        "apt update" (some (7 : Nat)) "" "permission denied").result = none := by
  have h := C9_theorem ⟨fun _ => none, true, none, fun _ => true⟩ [Plugin.apt]
    "apt update" "" "permission denied" "sfx" "srcx" (7 : Nat) (by decide)
  exact h.2.2.1.trans (by decide)

/-- C10: when the original command exits zero, `ExecuteWithMonitoring`
returns nil for every captured output and every environment — even when
error indicators are detected in stdout and a diagnosis cycle runs, its
outcome is discarded and a succeeded command is never turned into a
reported failure. -/
theorem C10_theorem {ε : Type} (env : Env) (plugins : List Plugin)
    (command stdoutS stderrS : String) :
    (ExecuteWithMonitoring (ε := ε) env plugins command none stdoutS stderrS).result = none := by
  unfold ExecuteWithMonitoring
  by_cases hd : detectError stdoutS <;> simp [hd]
